import Mathlib

/-!
Verification of the error-classification core and token exchange of the
delivery CLI (src/delivery/errors/mod.rs and src/delivery/http/token.rs).

The Rust code is shallowly embedded: external collaborator error types
(std::io::Error, rustc_serialize json errors, hyper::HttpError) are
abstracted to records carrying the strings the code extracts from them;
the HTTP transport and JSON codec collaborators are passed to the token
exchange as explicit function records; `DeliveryError`, its `Kind`
taxonomy, `description`, `cause`, `Display` and the five `FromError`
conversions are translated directly from errors/mod.rs.
-/

namespace Delivery

/-- std::io::Error, abstracted to the string its `Display` rendering
produces (the only thing errors/mod.rs extracts from it). -/
structure IoErr where
  msg : String
  deriving DecidableEq

/-- rustc_serialize json::EncoderError, abstracted to its `description()`. -/
structure EncoderErr where
  description : String
  deriving DecidableEq

/-- rustc_serialize json::DecoderError, abstracted to its `description()`. -/
structure DecoderErr where
  description : String
  deriving DecidableEq

/-- rustc_serialize json::ParserError, abstracted to its `description()`. -/
structure ParserErr where
  description : String
  deriving DecidableEq

/-- hyper::HttpError, abstracted to its `description()`; cloning it is the
identity on this pure value. -/
structure HttpError where
  description : String
  deriving DecidableEq

instance exceptDecEq {ε α : Type} [DecidableEq ε] [DecidableEq α] :
    DecidableEq (Except ε α) := fun x y =>
  match x, y with
  | .ok a, .ok b =>
    if h : a = b then .isTrue (by rw [h])
    else .isFalse (fun hc => h (by cases hc; rfl))
  | .error a, .error b =>
    if h : a = b then .isTrue (by rw [h])
    else .isFalse (fun hc => h (by cases hc; rfl))
  | .ok _, .error _ => .isFalse (fun hc => by cases hc)
  | .error _, .ok _ => .isFalse (fun hc => by cases hc)

/-- The closed `Kind` enum of errors/mod.rs. `ApiError` carries the numeric
HTTP status (hyper StatusCode, as a Nat) and the outcome of reading the
response body (`Result<String, io::Error>`). -/
inductive Kind where
  | AuthenticationFailed
  | NoMatchingCommand
  | NotOnABranch
  | CannotReviewSameBranch
  | FailedToExecute
  | PushFailed
  | BadGitOutputMatch
  | NoConfig
  | GitFailed
  | GitSetupFailed
  | ConfigParse
  | MissingConfig
  | ConfigValidation
  | IoError
  | JsonError
  | JsonEncode
  | NoBuildCookbook
  | NoHomedir
  | ExpectedJsonString
  | BerksFailed
  | NoValidBuildCookbook
  | CopyFailed
  | MissingBuildCookbookName
  | SupermarketFailed
  | MoveFailed
  | TarFailed
  | MissingBuildCookbookField
  | ChefServerFailed
  | ChownFailed
  | ChefFailed
  | ChmodFailed
  | UnsupportedHttpMethod
  | HttpError (e : HttpError)
  | ApiError (status : Nat) (body : Except IoErr String)
  | JsonParseError
  | OpenFailed
  | NoToken
  deriving DecidableEq

/-- struct DeliveryError of errors/mod.rs. -/
structure DeliveryError where
  kind : Kind
  detail : Option String
  deriving DecidableEq

/-- The `description` table of `impl Error for DeliveryError`, which matches
only on the kind; strings are copied verbatim from the source. -/
def describeKind : Kind → String
  | Kind.NoMatchingCommand => "No command matches your arguments - likely unimplemented feature"
  | Kind.NotOnABranch => "You must be on a branch"
  | Kind.CannotReviewSameBranch => "You cannot target code for review from the same branch as the review is targeted for"
  | Kind.FailedToExecute => "Tried to fork a process, and failed"
  | Kind.PushFailed => "Git Push failed!"
  | Kind.GitFailed => "Git command failed!"
  | Kind.GitSetupFailed => "Setup failed; you have already set up delivery."
  | Kind.BadGitOutputMatch => "A line of git porcelain did not match!"
  | Kind.NoConfig => "Cannot find a .git/config file"
  | Kind.ConfigParse => "Failed to parse the cli config file"
  | Kind.MissingConfig => "A configuration value is missing"
  | Kind.ConfigValidation => "A required option is missing - use the command line options or 'delivery setup'"
  | Kind.IoError => "An I/O Error occurred"
  | Kind.JsonError => "A JSON Parser error occured"
  | Kind.JsonEncode => "A JSON Encoding error occured"
  | Kind.NoBuildCookbook => "No build_cookbook entry in .delivery/config.json"
  | Kind.NoHomedir => "Cannot find a homedir"
  | Kind.BerksFailed => "Berkshelf command failed"
  | Kind.ExpectedJsonString => "Expected a JSON string"
  | Kind.NoValidBuildCookbook => "Cannot find a valid build_cookbook entry in .delivery/config.json"
  | Kind.MissingBuildCookbookName => "You must have a name field in you build_cookbook"
  | Kind.CopyFailed => "Failed to copy files"
  | Kind.SupermarketFailed => "Failed to download a cookbook from the supermarket"
  | Kind.TarFailed => "Cannot untar a file"
  | Kind.MoveFailed => "Cannot move a file"
  | Kind.MissingBuildCookbookField => "Missing a required field in your build_cookbook"
  | Kind.ChefServerFailed => "Failed to download a cookbook from the Chef Server"
  | Kind.ChownFailed => "Cannot set ownership to the dbuild user and group"
  | Kind.ChefFailed => "Chef Client failed"
  | Kind.ChmodFailed => "Cannot set permissions"
  | Kind.UnsupportedHttpMethod => "Unsupported HTTP method"
  | Kind.HttpError _ => "An HTTP Error occured"
  | Kind.ApiError _ _ => "An API Error occured"
  | Kind.JsonParseError => "Attempted to parse invalid JSON"
  | Kind.OpenFailed => "Open command failed"
  | Kind.AuthenticationFailed => "Authentication failed"
  | Kind.NoToken => "Missing API token. Try `delivery token` to create one"

/-- Method `DeliveryError::description`: dispatches on the kind only. -/
def DeliveryError.description (e : DeliveryError) : String :=
  describeKind e.kind

/-- The underlying-error reference returned by `DeliveryError::cause`:
either the wrapped hyper error or the wrapped io error. -/
inductive CauseRef where
  | httpCause (e : HttpError)
  | ioCause (e : IoErr)
  deriving DecidableEq

/-- Method `DeliveryError::cause` of errors/mod.rs. -/
def DeliveryError.cause (e : DeliveryError) : Option CauseRef :=
  match e.kind with
  | Kind.HttpError he => some (CauseRef.httpCause he)
  | Kind.ApiError _ body =>
    match body with
    | .ok _ => none
    | .error ioe => some (CauseRef.ioCause ioe)
  | _ => none

/-- The `impl fmt::Display for DeliveryError`: formats `self.description()`. -/
def DeliveryError.display (e : DeliveryError) : String :=
  e.description

/-- The `impl FromError<json::EncoderError> for DeliveryError`. -/
def fromEncoderError (err : EncoderErr) : DeliveryError :=
  { kind := Kind.JsonEncode, detail := some err.description }

/-- The `impl FromError<json::DecoderError> for DeliveryError`. -/
def fromDecoderError (err : DecoderErr) : DeliveryError :=
  { kind := Kind.JsonParseError, detail := some err.description }

/-- The `impl FromError<io::Error> for DeliveryError`. -/
def fromIoError (err : IoErr) : DeliveryError :=
  { kind := Kind.IoError, detail := some err.msg }

/-- The `impl FromError<json::ParserError> for DeliveryError`. -/
def fromParserError (err : ParserErr) : DeliveryError :=
  { kind := Kind.JsonError, detail := some err.description }

/-- The `impl FromError<hyper::HttpError> for DeliveryError`. -/
def fromHttpError (err : HttpError) : DeliveryError :=
  { kind := Kind.HttpError err, detail := some err.description }

/-- struct TokenRequest of http/token.rs. -/
structure TokenRequest where
  username : String
  password : String
  deriving DecidableEq

/-- struct TokenResponse of http/token.rs. -/
structure TokenResponse where
  token : String
  deriving DecidableEq

/-- The value `client.post` yields on transport success: the hyper response,
abstracted to its status code and the outcome of `read_to_string` on its
body (`Result<String, io::Error>`). -/
structure HttpResponse where
  status : Nat
  body : Except IoErr String
  deriving DecidableEq

/-- The HTTP client collaborator (`APIClient`): `post(path, payload)`
either fails at the transport level with a hyper::HttpError or yields a
response. -/
structure ApiClient where
  post : String → String → Except HttpError HttpResponse

/-- The JSON codec collaborator (rustc_serialize `json::encode` /
`json::decode` at the two types the token exchange uses). -/
structure JsonCodec where
  encodeTokenRequest : TokenRequest → Except EncoderErr String
  decodeTokenResponse : String → Except DecoderErr TokenResponse

/-- Method `TokenRequest::payload`: builds the record from the credentials,
encodes it, converting an encoder failure via `FromError` (the `try!`). -/
def TokenRequest.payload (codec : JsonCodec) (user pass : String) :
    Except DeliveryError String :=
  let treq : TokenRequest := { username := user, password := pass }
  match codec.encodeTokenRequest treq with
  | .error e => .error (fromEncoderError e)
  | .ok p => .ok p

/-- Method `TokenResponse::parse_token`: decodes the response body, converting a
decoder failure via `FromError` (the `try!`), and projects the token. -/
def TokenResponse.parse_token (codec : JsonCodec) (response : String) :
    Except DeliveryError String :=
  match codec.decodeTokenResponse response with
  | .error e => .error (fromDecoderError e)
  | .ok tresponse => .ok tresponse.token

/-- Modelled from the spec: hyper's StatusCode `Display` used by
the format of the non-401 failure branch; the spec's examples
render the status as its numeric code ("token request returned 503"). -/
def statusDisplay (code : Nat) : String :=
  toString code

/-- Function `token::request`, instrumented: alongside the result it returns the
list of (path, payload) POST calls issued to the client, so that claims
about which network calls happen are statable. The client construction
`APIClient::new_https(server, ent)` is the collaborator `mkClient`. -/
def requestTrace (mkClient : String → String → ApiClient) (codec : JsonCodec)
    (server ent user pass : String) :
    Except DeliveryError String × List (String × String) :=
  let client := mkClient server ent
  match TokenRequest.payload codec user pass with
  | .error e => (.error e, [])
  | .ok payload =>
    let path := "users/" ++ user ++ "/get-token"
    match client.post path payload with
    | .error he => (.error (fromHttpError he), [(path, payload)])
    | .ok result =>
      let res : Except DeliveryError String :=
        if result.status = 200 then
          match result.body with
          | .error ioe => .error (fromIoError ioe)
          | .ok body_string => TokenResponse.parse_token codec body_string
        else if result.status = 401 then
          .error { kind := Kind.AuthenticationFailed,
                   detail := some "token request returned 401" }
        else
          .error { kind := Kind.AuthenticationFailed,
                   detail := some ("token request returned " ++
                                   statusDisplay result.status) }
      (res, [(path, payload)])

/-- Function `token::request` of http/token.rs (the result component of the
instrumented model). -/
def request (mkClient : String → String → ApiClient) (codec : JsonCodec)
    (server ent user pass : String) : Except DeliveryError String :=
  (requestTrace mkClient codec server ent user pass).1

/-! ### Concrete JSON codec

Modelled from the spec: the derived rustc_serialize codec for
`TokenRequest` and `TokenResponse` is external collaborator code, pinned
by the spec's wire contract (fields in declaration order, JSON string
escaping) and by the repository's own unit tests in http/token.rs. -/

/-- One hex digit (lowercase). -/
def hexDigit (n : Nat) : Char :=
  if n < 10 then Char.ofNat (48 + n) else Char.ofNat (87 + n)

/-- Modelled from the spec: JSON string escaping as rustc_serialize's
`escape_str` performs it (quote, backslash, the short control escapes,
`\u00xx` for other control characters). -/
def escapeChar (c : Char) : List Char :=
  if c = Char.ofNat 34 then [Char.ofNat 92, Char.ofNat 34]
  else if c = Char.ofNat 92 then [Char.ofNat 92, Char.ofNat 92]
  else if c = Char.ofNat 8 then [Char.ofNat 92, 'b']
  else if c = Char.ofNat 12 then [Char.ofNat 92, 'f']
  else if c = Char.ofNat 10 then [Char.ofNat 92, 'n']
  else if c = Char.ofNat 13 then [Char.ofNat 92, 'r']
  else if c = Char.ofNat 9 then [Char.ofNat 92, 't']
  else if c.toNat < 32 then
    [Char.ofNat 92, 'u', '0', '0', hexDigit (c.toNat / 16), hexDigit (c.toNat % 16)]
  else [c]

/-- JSON-escape a string. -/
def jsonEscape (s : String) : String :=
  String.mk (s.data.map escapeChar).flatten

/-- Modelled from the spec: the derived encoder for `TokenRequest` —
an object with `username` then `password`, in declaration order. -/
def jsonEncodeTokenRequest (t : TokenRequest) : Except EncoderErr String :=
  .ok ("\x7b\"username\":\"" ++ jsonEscape t.username ++
       "\",\"password\":\"" ++ jsonEscape t.password ++ "\"\x7d")

/-- Value of a hex digit, if any. -/
def hexVal (c : Char) : Option Nat :=
  if 48 ≤ c.toNat ∧ c.toNat ≤ 57 then some (c.toNat - 48)
  else if 97 ≤ c.toNat ∧ c.toNat ≤ 102 then some (c.toNat - 87)
  else if 65 ≤ c.toNat ∧ c.toNat ≤ 70 then some (c.toNat - 55)
  else none

/-- Resolve a one-character JSON escape. -/
def unescapeChar (e : Char) : Option Char :=
  if e = Char.ofNat 34 then some (Char.ofNat 34)
  else if e = Char.ofNat 92 then some (Char.ofNat 92)
  else if e = '/' then some '/'
  else if e = 'b' then some (Char.ofNat 8)
  else if e = 'f' then some (Char.ofNat 12)
  else if e = 'n' then some (Char.ofNat 10)
  else if e = 'r' then some (Char.ofNat 13)
  else if e = 't' then some (Char.ofNat 9)
  else none

/-- Skip JSON whitespace. -/
def skipWs : List Char → List Char
  | [] => []
  | c :: cs =>
    if c = ' ' ∨ c = Char.ofNat 9 ∨ c = Char.ofNat 10 ∨ c = Char.ofNat 13
    then skipWs cs else c :: cs

/-- Parse the body of a JSON string literal (opening quote already
consumed); returns the decoded characters and the input after the
closing quote. -/
def parseStringBody : List Char → Option (List Char × List Char)
  | [] => none
  | c :: cs =>
    if c = Char.ofNat 34 then some ([], cs)
    else if c = Char.ofNat 92 then
      match cs with
      | [] => none
      | e :: cs2 =>
        if e = 'u' then
          match cs2 with
          | h1 :: h2 :: h3 :: h4 :: cs3 =>
            match hexVal h1, hexVal h2, hexVal h3, hexVal h4 with
            | some a, some b, some c1, some d =>
              match parseStringBody cs3 with
              | some (body, rest) =>
                some (Char.ofNat (a * 4096 + b * 256 + c1 * 16 + d) :: body, rest)
              | none => none
            | _, _, _, _ => none
          | _ => none
        else
          match unescapeChar e with
          | some ch =>
            match parseStringBody cs2 with
            | some (body, rest) => some (ch :: body, rest)
            | none => none
          | none => none
    else
      match parseStringBody cs with
      | some (body, rest) => some (c :: body, rest)
      | none => none

/-- Parse the members of a flat JSON object whose values are all strings:
`"key" : "value"` pairs, comma separated, up to the closing brace. The
fuel bounds recursion depth; callers supply more fuel than characters. -/
def parseMembers : Nat → List Char → Option (List (String × String) × List Char)
  | 0, _ => none
  | fuel + 1, input =>
    match skipWs input with
    | [] => none
    | c :: cs1 =>
      if c = Char.ofNat 34 then
        match parseStringBody cs1 with
        | none => none
        | some (key, rest1) =>
          match skipWs rest1 with
          | ':' :: rest3 =>
            match skipWs rest3 with
            | q :: rest5 =>
              if q = Char.ofNat 34 then
                match parseStringBody rest5 with
                | none => none
                | some (val, rest6) =>
                  match skipWs rest6 with
                  | ',' :: rest8 =>
                    match parseMembers fuel rest8 with
                    | some (more, rest9) =>
                      some ((String.mk key, String.mk val) :: more, rest9)
                    | none => none
                  | d :: rest8 =>
                    if d = Char.ofNat 125 then
                      some ([(String.mk key, String.mk val)], rest8)
                    else none
                  | [] => none
              else none
            | [] => none
          | _ => none
      else none

/-- Parse a complete flat JSON object of string fields. -/
def parseFlatObject (s : String) : Option (List (String × String)) :=
  match skipWs s.data with
  | [] => none
  | c :: cs1 =>
    if c = Char.ofNat 123 then
      match skipWs cs1 with
      | [] => none
      | d :: cs3 =>
        if d = Char.ofNat 125 then
          if (skipWs cs3).isEmpty then some [] else none
        else
          match parseMembers (cs1.length + 1) (d :: cs3) with
          | some (ms, rest) => if (skipWs rest).isEmpty then some ms else none
          | none => none
    else none

/-- Fetch a field by name from parsed members. -/
def lookupField : List (String × String) → String → Option String
  | [], _ => none
  | (k, v) :: rest, key => if k = key then some v else lookupField rest key

/-- Modelled from the spec: the derived decoder for `TokenRequest` —
parse the JSON object and read the `username` and `password` fields. -/
def jsonDecodeTokenRequest (s : String) : Except DecoderErr TokenRequest :=
  match parseFlatObject s with
  | none => .error { description := "invalid json" }
  | some ms =>
    match lookupField ms "username", lookupField ms "password" with
    | some u, some p => .ok { username := u, password := p }
    | _, _ => .error { description := "missing field" }

/-- Modelled from the spec: the derived decoder for `TokenResponse` —
parse the JSON object and read the `token` field. -/
def jsonDecodeTokenResponse (s : String) : Except DecoderErr TokenResponse :=
  match parseFlatObject s with
  | none => .error { description := "invalid json" }
  | some ms =>
    match lookupField ms "token" with
    | some t => .ok { token := t }
    | none => .error { description := "missing field" }

/-- The codec the production code uses: derived rustc_serialize encode and
decode at the token-exchange types. -/
def realCodec : JsonCodec :=
  { encodeTokenRequest := jsonEncodeTokenRequest,
    decodeTokenResponse := jsonDecodeTokenResponse }

/-! ### Substring machinery for detail-message claims -/

/-- Is `n` a prefix of `l`? -/
def listPrefixOf : List Char → List Char → Bool
  | [], _ => true
  | _ :: _, [] => false
  | a :: as, b :: bs => a = b && listPrefixOf as bs

/-- Does `n` occur as a contiguous run inside `l`? -/
def listSubstrOf (n : List Char) : List Char → Bool
  | [] => listPrefixOf n []
  | c :: cs => listPrefixOf n (c :: cs) || listSubstrOf n cs

/-- Does the string `hay` contain `needle` as a contiguous substring? -/
def strContainsSubstr (hay needle : String) : Bool :=
  listSubstrOf needle.data hay.data

/-- Whether a kind is one the visible core itself constructs. -/
def kindInCore : Kind → Bool
  | Kind.JsonEncode => true
  | Kind.JsonParseError => true
  | Kind.JsonError => true
  | Kind.IoError => true
  | Kind.HttpError _ => true
  | Kind.AuthenticationFailed => true
  | _ => false

/-! ### Helper lemmas -/

theorem listPrefixOf_refl (l : List Char) : listPrefixOf l l = true := by
  induction l with
  | nil => rfl
  | cons c cs ih => simp [listPrefixOf, ih]

theorem listSubstrOf_self (t : List Char) : listSubstrOf t t = true := by
  cases t with
  | nil => rfl
  | cons c cs => simp [listSubstrOf, listPrefixOf_refl]

theorem listSubstrOf_append (s t : List Char) : listSubstrOf t (s ++ t) = true := by
  induction s with
  | nil => simpa using listSubstrOf_self t
  | cons a as ih => simp [listSubstrOf, ih]

theorem strContainsSubstr_append (s t : String) :
    strContainsSubstr (s ++ t) t = true := by
  unfold strContainsSubstr
  rw [String.data_append]
  exact listSubstrOf_append s.data t.data

theorem payload_error_kind (codec : JsonCodec) (user pass : String)
    (e : DeliveryError) (h : TokenRequest.payload codec user pass = .error e) :
    ∃ ee : EncoderErr,
      codec.encodeTokenRequest { username := user, password := pass } = .error ee ∧
      e = fromEncoderError ee := by
  simp only [TokenRequest.payload] at h
  split at h
  · rename_i ee heq
    cases h
    exact ⟨ee, heq, rfl⟩
  · cases h

theorem parse_token_error_kind (codec : JsonCodec) (r : String)
    (e : DeliveryError) (h : TokenResponse.parse_token codec r = .error e) :
    ∃ de : DecoderErr,
      codec.decodeTokenResponse r = .error de ∧ e = fromDecoderError de := by
  simp only [TokenResponse.parse_token] at h
  split at h
  · rename_i de heq
    cases h
    exact ⟨de, heq, rfl⟩
  · cases h

theorem request_error_core (mkClient : String → String → ApiClient)
    (codec : JsonCodec) (server ent user pass : String) (e : DeliveryError)
    (h : request mkClient codec server ent user pass = .error e) :
    kindInCore e.kind = true := by
  simp only [request, requestTrace] at h
  split at h
  · rename_i e' hp
    obtain ⟨ee, _, hee⟩ := payload_error_kind codec user pass e' hp
    injection h with h2
    rw [← h2, hee]
    rfl
  · rename_i pl hp
    split at h
    · rename_i he hpost
      simp only at h
      cases h
      rfl
    · rename_i result hpost
      simp only at h
      split at h
      · split at h
        · rename_i ioe hbody
          cases h
          rfl
        · rename_i bs hbody
          obtain ⟨de, _, hde⟩ := parse_token_error_kind codec bs e h
          rw [hde]
          rfl
      · split at h
        · cases h
          rfl
        · cases h
          rfl

/-! ### Claims -/

/-- C1 counterexample: the claim maps a JSON decode failure to kind
`JsonError` and a JSON low-level parse failure to `JsonParseError`; the
code does the opposite for both conversion functions. -/
theorem json_decode_parse_kinds_cex :
    (fromDecoderError { description := "bad json" }).kind ≠ Kind.JsonError ∧
    (fromParserError { description := "bad json" }).kind ≠ Kind.JsonParseError := by
  decide

/-- C1 (amended): each conversion function assigns its fixed kind and
copies the external error's own message into `detail`: I/O → `IoError`,
JSON encode → `JsonEncode`, JSON decode → `JsonParseError`, JSON
low-level parse → `JsonError`, HTTP transport → `HttpError` with the
cause stored as a copy of the transport error inside the kind. -/
theorem error_conversions_assign_kinds :
    ∀ (io : IoErr) (ee : EncoderErr) (de : DecoderErr) (pe : ParserErr)
      (he : HttpError),
      fromIoError io = { kind := Kind.IoError, detail := some io.msg } ∧
      fromEncoderError ee = { kind := Kind.JsonEncode, detail := some ee.description } ∧
      fromDecoderError de = { kind := Kind.JsonParseError, detail := some de.description } ∧
      fromParserError pe = { kind := Kind.JsonError, detail := some pe.description } ∧
      fromHttpError he = { kind := Kind.HttpError he, detail := some he.description } :=
  fun _ _ _ _ _ => ⟨rfl, rfl, rfl, rfl, rfl⟩

/-- C4: `cause` returns a present underlying error exactly when the kind
is `HttpError` or an `ApiError` whose body read failed; every other kind
yields nothing. -/
theorem cause_present_iff (e : DeliveryError) :
    (e.cause).isSome = true ↔
      ((∃ he, e.kind = Kind.HttpError he) ∨
       (∃ st ioe, e.kind = Kind.ApiError st (.error ioe))) := by
  obtain ⟨k, d⟩ := e
  cases k <;> simp [DeliveryError.cause]
  rename_i st body
  cases body <;> simp

/-- C6: serializing alice/sesame123 through `TokenRequest::payload`
produces exactly the JSON object with `username` before `password`, and
decoding that string back yields the same record. -/
theorem payload_alice_roundtrip :
    TokenRequest.payload realCodec "alice" "sesame123" =
      .ok "\x7b\"username\":\"alice\",\"password\":\"sesame123\"\x7d" ∧
    jsonDecodeTokenRequest
        "\x7b\"username\":\"alice\",\"password\":\"sesame123\"\x7d" =
      .ok { username := "alice", password := "sesame123" } := by
  decide

/-- C8: the display string of a classified error is exactly the static
description of its kind; the detail field never enters the display
string (displays with any detail and with none coincide). -/
theorem display_is_description_of_kind (e : DeliveryError) :
    e.display = describeKind e.kind ∧
    ∀ d : Option String,
      DeliveryError.display { kind := e.kind, detail := d } = e.display :=
  ⟨rfl, fun _ => rfl⟩

/-- C9: the description table is total over the closed kind set, always
yields a non-empty string, and is pure (two calls agree). -/
theorem describe_total_pure_nonempty (k : Kind) :
    describeKind k ≠ "" ∧ describeKind k = describeKind k := by
  refine ⟨?_, rfl⟩
  cases k <;> simp only [describeKind] <;> decide

/-- C2: whenever the server responds with any status other than 200, the
exchange fails with kind `AuthenticationFailed` and a detail naming the
numeric status observed. -/
theorem request_non200_authentication_failed
    (mkClient : String → String → ApiClient) (codec : JsonCodec)
    (server ent user pass payload : String) (resp : HttpResponse)
    (henc : codec.encodeTokenRequest { username := user, password := pass } = .ok payload)
    (hpost : (mkClient server ent).post ("users/" ++ user ++ "/get-token") payload = .ok resp)
    (hstat : resp.status ≠ 200) :
    ∃ d : String,
      request mkClient codec server ent user pass =
        .error { kind := Kind.AuthenticationFailed, detail := some d } ∧
      strContainsSubstr d (toString resp.status) = true := by
  have hp : TokenRequest.payload codec user pass = .ok payload := by
    simp only [TokenRequest.payload, henc]
  simp only [request, requestTrace, hp, hpost]
  by_cases h401 : resp.status = 401
  · refine ⟨"token request returned 401", ?_, ?_⟩
    · rw [if_neg hstat, if_pos h401]
    · rw [h401]
      decide
  · refine ⟨"token request returned " ++ statusDisplay resp.status, ?_, ?_⟩
    · rw [if_neg hstat, if_neg h401]
    · simpa [statusDisplay] using
        strContainsSubstr_append "token request returned " (toString resp.status)

theorem request_non200_authentication_failed_witness :
    (∃ d : String,
      request (fun _ _ => ⟨fun _ _ => .ok ⟨401, .ok ""⟩⟩) realCodec "s" "e" "u" "p" =
        .error { kind := Kind.AuthenticationFailed, detail := some d } ∧
      strContainsSubstr d (toString (401 : Nat)) = true) ∧
    (∃ d : String,
      request (fun _ _ => ⟨fun _ _ => .ok ⟨503, .ok ""⟩⟩) realCodec "s" "e" "u" "p" =
        .error { kind := Kind.AuthenticationFailed, detail := some d } ∧
      strContainsSubstr d (toString (503 : Nat)) = true) :=
  ⟨request_non200_authentication_failed _ realCodec "s" "e" "u" "p"
      "\x7b\"username\":\"u\",\"password\":\"p\"\x7d" ⟨401, .ok ""⟩
      (by decide) rfl (by decide),
   request_non200_authentication_failed _ realCodec "s" "e" "u" "p"
      "\x7b\"username\":\"u\",\"password\":\"p\"\x7d" ⟨503, .ok ""⟩
      (by decide) rfl (by decide)⟩

/-- C3: on a 200 response whose body decodes as the `TokenResponse`
shape, the exchange returns exactly the token field's value. -/
theorem request_200_returns_token
    (mkClient : String → String → ApiClient) (codec : JsonCodec)
    (server ent user pass payload bs : String) (resp : HttpResponse)
    (tresp : TokenResponse)
    (henc : codec.encodeTokenRequest { username := user, password := pass } = .ok payload)
    (hpost : (mkClient server ent).post ("users/" ++ user ++ "/get-token") payload = .ok resp)
    (hstat : resp.status = 200)
    (hbody : resp.body = .ok bs)
    (hdec : codec.decodeTokenResponse bs = .ok tresp) :
    request mkClient codec server ent user pass = .ok tresp.token := by
  have hp : TokenRequest.payload codec user pass = .ok payload := by
    simp only [TokenRequest.payload, henc]
  simp only [request, requestTrace, hp, hpost, hstat, hbody,
    TokenResponse.parse_token, hdec, ite_true]

theorem request_200_returns_token_witness :
    request
      (fun _ _ => ⟨fun _ _ => .ok ⟨200, .ok "\x7b\"token\":\"abc123\"\x7d"⟩⟩)
      realCodec "s" "e" "alice" "sesame123" = .ok "abc123" :=
  request_200_returns_token _ realCodec "s" "e" "alice" "sesame123"
    "\x7b\"username\":\"alice\",\"password\":\"sesame123\"\x7d"
    "\x7b\"token\":\"abc123\"\x7d" ⟨200, .ok "\x7b\"token\":\"abc123\"\x7d"⟩
    ⟨"abc123"⟩ (by decide) rfl rfl rfl (by decide)

/-- C5: if building the credential payload fails to encode, the exchange
aborts with kind `JsonEncode` and no POST is ever issued to the HTTP
collaborator (the call trace is empty). -/
theorem encode_failure_aborts_before_post
    (mkClient : String → String → ApiClient) (codec : JsonCodec)
    (server ent user pass : String) (ee : EncoderErr)
    (henc : codec.encodeTokenRequest { username := user, password := pass } = .error ee) :
    (requestTrace mkClient codec server ent user pass).2 = [] ∧
    (requestTrace mkClient codec server ent user pass).1 =
      .error { kind := Kind.JsonEncode, detail := some ee.description } := by
  have hp : TokenRequest.payload codec user pass = .error (fromEncoderError ee) := by
    simp only [TokenRequest.payload, henc]
  constructor <;> simp only [requestTrace, hp, fromEncoderError]

theorem encode_failure_aborts_before_post_witness :
    (requestTrace (fun _ _ => ⟨fun _ _ => .ok ⟨200, .ok ""⟩⟩)
      ⟨fun _ => .error ⟨"boom"⟩, jsonDecodeTokenResponse⟩ "s" "e" "u" "p").2 = [] ∧
    (requestTrace (fun _ _ => ⟨fun _ _ => .ok ⟨200, .ok ""⟩⟩)
      ⟨fun _ => .error ⟨"boom"⟩, jsonDecodeTokenResponse⟩ "s" "e" "u" "p").1 =
      .error { kind := Kind.JsonEncode, detail := some "boom" } :=
  encode_failure_aborts_before_post _ _ "s" "e" "u" "p" ⟨"boom"⟩ rfl

/-- C7: every POST the exchange issues uses the request path computed
byte-for-byte from the username by the template users/.../get-token. -/
theorem request_path_byte_for_byte
    (mkClient : String → String → ApiClient) (codec : JsonCodec)
    (server ent user pass : String) (call : String × String)
    (hmem : call ∈ (requestTrace mkClient codec server ent user pass).2) :
    call.1 = "users/" ++ user ++ "/get-token" := by
  simp only [requestTrace] at hmem
  split at hmem
  · simp at hmem
  · split at hmem
    · simp only [List.mem_singleton] at hmem
      rw [hmem]
    · simp only [List.mem_singleton] at hmem
      rw [hmem]

theorem request_path_byte_for_byte_witness :
    (("users/alice/get-token",
       "\x7b\"username\":\"alice\",\"password\":\"sesame123\"\x7d") ∈
      (requestTrace (fun _ _ => ⟨fun _ _ => .ok ⟨200, .ok ""⟩⟩) realCodec
        "s" "e" "alice" "sesame123").2) ∧
    (("users/alice/get-token",
       "\x7b\"username\":\"alice\",\"password\":\"sesame123\"\x7d") : String × String).1 =
      "users/" ++ "alice" ++ "/get-token" :=
  ⟨by decide,
   request_path_byte_for_byte (fun _ _ => ⟨fun _ _ => .ok ⟨200, .ok ""⟩⟩)
     realCodec "s" "e" "alice" "sesame123"
     ("users/alice/get-token",
      "\x7b\"username\":\"alice\",\"password\":\"sesame123\"\x7d") (by decide)⟩

/-- C10: every error the visible core itself constructs — through
`request`, `TokenRequest::payload`, `TokenResponse::parse_token` or the
five conversion functions — has a kind among JsonEncode, JsonParseError,
JsonError, IoError, HttpError and AuthenticationFailed; in particular
`ApiError` is never among them. -/
theorem visible_core_only_core_kinds :
    ∀ (mkClient : String → String → ApiClient) (codec : JsonCodec)
      (server ent user pass r : String) (io : IoErr) (ee : EncoderErr)
      (de : DecoderErr) (pe : ParserErr) (he : HttpError)
      (e1 e2 e3 : DeliveryError),
      (request mkClient codec server ent user pass = .error e1 →
        kindInCore e1.kind = true) ∧
      (TokenRequest.payload codec user pass = .error e2 →
        kindInCore e2.kind = true) ∧
      (TokenResponse.parse_token codec r = .error e3 →
        kindInCore e3.kind = true) ∧
      kindInCore (fromEncoderError ee).kind = true ∧
      kindInCore (fromDecoderError de).kind = true ∧
      kindInCore (fromIoError io).kind = true ∧
      kindInCore (fromParserError pe).kind = true ∧
      kindInCore (fromHttpError he).kind = true ∧
      (∀ (st : Nat) (b : Except IoErr String),
        kindInCore (Kind.ApiError st b) = false) := by
  intro mkClient codec server ent user pass r io ee de pe he e1 e2 e3
  refine ⟨request_error_core mkClient codec server ent user pass e1,
    ?_, ?_, rfl, rfl, rfl, rfl, rfl, fun _ _ => rfl⟩
  · intro h
    obtain ⟨ee2, _, he2⟩ := payload_error_kind codec user pass e2 h
    rw [he2]
    rfl
  · intro h
    obtain ⟨de2, _, hd2⟩ := parse_token_error_kind codec r e3 h
    rw [hd2]
    rfl

theorem visible_core_only_core_kinds_witness :
    request (fun _ _ => ⟨fun _ _ => .ok ⟨404, .ok ""⟩⟩) realCodec "s" "e" "u" "p" =
      .error { kind := Kind.AuthenticationFailed,
               detail := some "token request returned 404" } ∧
    kindInCore (DeliveryError.mk Kind.AuthenticationFailed
      (some "token request returned 404")).kind = true :=
  ⟨by decide,
   (visible_core_only_core_kinds (fun _ _ => ⟨fun _ _ => .ok ⟨404, .ok ""⟩⟩)
     realCodec "s" "e" "u" "p" "" ⟨""⟩ ⟨""⟩ ⟨""⟩ ⟨""⟩ ⟨""⟩
     ⟨Kind.AuthenticationFailed, some "token request returned 404"⟩
     ⟨Kind.IoError, none⟩ ⟨Kind.IoError, none⟩).1 (by decide)⟩

end Delivery
